import Mathlib

/-!
Verification of the lovebot message-moderation pipeline.

Shallow embedding of the repository's Python sources:
- `models/message.py`    → the `Message`, `NLPResult`, `SentimentResult`,
  `ProcessedMessage` structures;
- `services/command_handler.py` → `matched_command`, `process_command` and the
  command handlers;
- `services/ai_processor.py`    → `process_message`, `should_respond`,
  `determine_response_need`;
- `data/database.py`     → `store_message`, `get_conversation_history` over an
  explicit list-of-records store modelling the document collection;
- `integrations/whatsapp.py`    → `send_message` in an explicit exception monad;
- `app.py`               → `mkInboundMessage`, `handle_message` with the
  outcomes of awaited collaborator calls supplied by an `Env` record.

Python strings are modelled as `String`/`List Char`; Python `float` sentiment
scores as `ℚ` (the comparisons at stake, against the literals -0.7, -0.71 and
-0.9, are exact in double precision, so the rational model is faithful);
timestamps as `Int`; raised exceptions as `Except`.
-/

/-! ### models/message.py -/

/-- `Message` dataclass: a WhatsApp message. -/
structure Message where
  sender : String
  group : String
  content : String
  timestamp : Int
  message_id : Option String := none
deriving DecidableEq, Repr

/-- `NLPResult` dataclass: results from NLP analysis. Entity records are
modelled as opaque key/value lists. -/
structure NLPResult where
  entities : List (List (String × String))
  intent : String
  topics : List String
  tokens : List String
deriving DecidableEq, Repr

/-- `SentimentResult` dataclass: score in [-1.0, 1.0], magnitude, and three
classification booleans. The dataclass itself imposes no invariant relating
the fields. -/
structure SentimentResult where
  score : ℚ
  magnitude : ℚ
  is_positive : Bool
  is_negative : Bool
  is_neutral : Bool
deriving DecidableEq, Repr

/-- `ProcessedMessage` dataclass: a message with processing results. -/
structure ProcessedMessage where
  original_message : Message
  nlp_result : NLPResult
  sentiment : SentimentResult
  relevant_context : List Message
deriving DecidableEq, Repr

/-! ### Python string primitives used by `command_handler.py`

`str.strip()`, `str.split(' ')`, `str.lower()`, `str.startswith` are modelled
over `List Char`. `split(' ')` with an explicit single-space separator keeps
empty fields (`"".split(' ') == ['']`, `"a  b".split(' ') == ['a','','b']`),
and `lower()` is modelled on the ASCII range, which covers every string the
repository compares. -/

/-- Python `str.strip()` whitespace class (ASCII part): space, tab, newline,
carriage return, vertical tab, form feed. -/
def isPySpace (c : Char) : Bool :=
  c.toNat == 32 || c.toNat == 9 || c.toNat == 10 || c.toNat == 13 ||
  c.toNat == 11 || c.toNat == 12

/-- Python `str.strip()`: drop leading and trailing whitespace. -/
def pyStripL (l : List Char) : List Char :=
  ((l.dropWhile isPySpace).reverse.dropWhile isPySpace).reverse

/-- Python `str.split(' ')`: split on each single space, keeping empty
fields; the result is never empty. -/
def pySplitSpaceL : List Char → List (List Char)
  | [] => [[]]
  | c :: rest =>
    if c.toNat == 32 then [] :: pySplitSpaceL rest
    else
      match pySplitSpaceL rest with
      | [] => [[c]]
      | t :: ts => (c :: t) :: ts

/-- Python `str.lower()` on one character (ASCII range). -/
def pyLowerChar (c : Char) : Char :=
  if 65 ≤ c.toNat ∧ c.toNat ≤ 90 then Char.ofNat (c.toNat + 32) else c

/-- Python `str.lower()`. -/
def pyLowerL (l : List Char) : List Char := l.map pyLowerChar

/-- Python `str.startswith`: `beginsWith pre s` holds when `pre` is an initial
segment of `s` (case-sensitive). -/
def beginsWith : List Char → List Char → Bool
  | [], _ => true
  | _, [] => false
  | p :: ps, c :: cs => p == c && beginsWith ps cs

/-- The reserved command marker `'#lovebot'`. -/
def lovebotTag : List Char := "#lovebot".data

/-! ### services/command_handler.py -/

/-- The command names registered by `register_default_commands`, in
registration order (the keys of `self.commands`). -/
def default_command_names : List String := ["help", "pause", "resume", "settings", "feedback"]

/-- The command-selection logic of `CommandHandler.process_command`: returns
the key of the dispatched handler, or `none` when the message is not treated
as a command. Source steps: `startswith('#lovebot')` guard; strip the marker
(`content[len('#lovebot'):]`), `.strip()`, `.split(' ')`; first part lowered
(`parts[0].lower() if parts else ''`); look the token up among the registered
commands. -/
def matched_command (content : String) : Option String :=
  if beginsWith lovebotTag content.data then
    -- len('#lovebot') = 8
    let parts := pySplitSpaceL (pyStripL (content.data.drop 8))
    let command : String :=
      match parts with
      | [] => ""
      | h :: _ => ⟨pyLowerL h⟩
    if default_command_names.contains command then some command else none
  else
    none

/-- `CommandHandler.process_command`: true when the message was a command and
its handler was dispatched, false otherwise. -/
def process_command (message : Message) : Bool :=
  (matched_command message.content).isSome

/-- `CommandHandler.handle_pause_command`: the body is `pass` — no state is
read or written and nothing is sent. -/
def handle_pause_command (_args : List String) (_message : Message) : Unit := ()

/-- `CommandHandler.handle_resume_command`: the body is `pass`. -/
def handle_resume_command (_args : List String) (_message : Message) : Unit := ()

/-! ### services/ai_processor.py -/

/-- The literal `-0.7` of `_determine_response_need`, as an explicit reduced
rational so that comparisons compute. -/
def interventionThreshold : ℚ := mkRat (-7) 10

/-- `AIProcessor._determine_response_need`: source is
`return processed_message.sentiment.score < -0.7`. -/
def determine_response_need (processed_message : ProcessedMessage) : Bool :=
  decide (processed_message.sentiment.score < interventionThreshold)

/-- `AIProcessor.should_respond`: delegates to `_determine_response_need`. -/
def should_respond (processed_message : ProcessedMessage) : Bool :=
  determine_response_need processed_message

/-- `AIProcessor.process_message`: the NLP, sentiment and context collaborators
are external; given their outputs it assembles the `ProcessedMessage`. The
conversation history is only forwarded to the (external) context manager. -/
def process_message (message : Message) (_conversation_history : List Message)
    (nlp_result : NLPResult) (sentiment : SentimentResult)
    (relevant_context : List Message) : ProcessedMessage :=
  { original_message := message
    nlp_result := nlp_result
    sentiment := sentiment
    relevant_context := relevant_context }

/-! ### data/database.py -/

/-- The persisted record shape written by `store_message` (`insert_one` of
`user_id`, `group_id`, `content`, `timestamp`). -/
structure DBRecord where
  user_id : String
  group_id : String
  content : String
  timestamp : Int
deriving DecidableEq, Repr

/-- `MessageDatabase.store_message`: the collection is modelled as a list in
insertion order; `insert_one` appends the four persisted fields. -/
def store_message (db : List DBRecord) (message : Message) : List DBRecord :=
  db ++ [{ user_id := message.sender, group_id := message.group,
           content := message.content, timestamp := message.timestamp }]

/-- The sort key of `find(...).sort('timestamp', -1)`: newest first. -/
def newerFirst (a b : DBRecord) : Prop := b.timestamp ≤ a.timestamp

instance : DecidableRel newerFirst :=
  fun a b => inferInstanceAs (Decidable (b.timestamp ≤ a.timestamp))

instance : IsTotal DBRecord newerFirst :=
  ⟨fun a b => le_total b.timestamp a.timestamp⟩

instance : IsTrans DBRecord newerFirst :=
  ⟨fun _ _ _ h1 h2 => le_trans h2 h1⟩

/-- Reconstruction of a `Message` from a stored document, as in the
`async for` loop of `get_conversation_history` (`message_id` is not stored,
so it keeps its dataclass default `None`). -/
def recordToMessage (r : DBRecord) : Message :=
  { sender := r.user_id, group := r.group_id, content := r.content,
    timestamp := r.timestamp }

/-- `MessageDatabase.get_conversation_history`:
`find({'group_id': group_id}).sort('timestamp', -1).limit(limit)`, modelled as
filter, sort newest-first, truncate, rebuild `Message` values. -/
def get_conversation_history (db : List DBRecord) (group_id : String) (limit : Nat) :
    List Message :=
  ((((db.filter (fun r => r.group_id == group_id)).insertionSort newerFirst).take limit).map
    recordToMessage)

/-! ### integrations/whatsapp.py -/

/-- The result dictionary of `WhatsAppIntegration.send_message`: either
`{'status': 'success', 'message_id': sid}` or
`{'status': 'error', 'error': reason}`. -/
inductive SendResult
  | success (message_id : String)
  | error (error : String)
deriving DecidableEq, Repr

/-- The `try` block body of `send_message`: call
`client.messages.create(from_=..., body=..., to=...)` — an external call that
may raise — then build the success dictionary with the returned sid. -/
def send_message_body (create : String → String → String → Except String String)
    (phone_number recipient text : String) : Except String SendResult := do
  let sid ← create ("whatsapp:" ++ phone_number) text ("whatsapp:" ++ recipient)
  return SendResult.success sid

/-- `WhatsAppIntegration.send_message`: the whole body sits inside
`try ... except Exception as e`, which converts any raised error into the
error dictionary; nothing escapes the method. -/
def send_message (create : String → String → String → Except String String)
    (phone_number recipient text : String) : Except String SendResult :=
  match send_message_body create phone_number recipient text with
  | .ok r => .ok r
  | .error e => .ok (.error e)

/-! ### app.py -/

/-- A raw inbound webhook payload (`message_data`): `from`, optional
`group_id`, `body`, optional `id`. -/
structure MessageData where
  from_ : String
  group_id : Option String := none
  body : String
  id : Option String := none
deriving DecidableEq, Repr

/-- A raised Python exception, carried on the `Except.error` side. -/
structure PyErr where
  reason : String
deriving DecidableEq, Repr

/-- Outcomes of the awaited collaborator calls made by `handle_message`,
supplied by the environment: the Message Store write and read, the external
NLP and sentiment services (`Except.error` models a raised exception), the
context manager's retrieval, and the transport's delivery result (the
transport returns a result dictionary rather than raising — see
`send_message`). -/
structure Env where
  storeResult : Except PyErr Unit
  historyResult : Except PyErr (List Message)
  nlpResult : Except PyErr NLPResult
  sentimentResult : Except PyErr SentimentResult
  relevantContext : List Message
  sendResult : SendResult

/-- Terminal state of one `handle_message` run. -/
inductive HandleOutcome
  | commandHandled
  | suppressed
  | responded (recipient text : String) (delivery : SendResult)
deriving DecidableEq, Repr

/-- The `Message` constructed at the top of `handle_message`: the conversation
identifier is `message_data.get('group_id', '')` and the external id is
`message_data.get('id', '')`. -/
def mkInboundMessage (message_data : MessageData) (now : Int) : Message :=
  { sender := message_data.from_
    group := message_data.group_id.getD ""
    content := message_data.body
    timestamp := now
    message_id := some (message_data.id.getD "") }

/-- The fixed intervention reply text sent by `handle_message`. -/
def interventionText : String :=
  "I noticed there might be some tension. Remember to use \x27I\x27 statements."

/-- `LoveBot.handle_message`: store, command check, history fetch, analysis,
moderation decision, optional reply. The body contains no `try`/`except`, so
each collaborator failure short-circuits as `Except.error`. -/
def handle_message (env : Env) (message_data : MessageData) (now : Int) :
    Except PyErr HandleOutcome := do
  let message := mkInboundMessage message_data now
  let _ ← env.storeResult
  let is_command := process_command message
  if is_command then
    return .commandHandled
  let history ← env.historyResult
  let nlp ← env.nlpResult
  let sentiment ← env.sentimentResult
  let processed := process_message message history nlp sentiment env.relevantContext
  if should_respond processed then
    return .responded message.group interventionText env.sendResult
  return .suppressed

/-! ### Spec-modelled sentiment analyzer (for claim C6) -/

/-- Modelled from the spec: `services/sentiment_analyzer.py` (the
`SentimentAnalyzer` class imported by `ai_processor.py`) is not present under
`src/`; only its caller is. Spec §4.4 requires the classification booleans of
`analyzeSentiment` to satisfy: `score == 0` implies neutral, score strictly
below the negative threshold implies negative, score strictly above the
positive threshold implies positive, exactly one flag set, with the thresholds
configuration constants default symmetric around 0. -/
def analyze_sentiment_classification (negativeThreshold positiveThreshold : ℚ)
    (score magnitude : ℚ) : SentimentResult :=
  { score := score
    magnitude := magnitude
    is_positive := decide (positiveThreshold < score)
    is_negative := decide (score < negativeThreshold)
    is_neutral := decide (¬ positiveThreshold < score ∧ ¬ score < negativeThreshold) }

/-- Exactly one of the three classification booleans is set. -/
def exactlyOneFlag (r : SentimentResult) : Prop :=
  (r.is_positive = true ∧ r.is_negative = false ∧ r.is_neutral = false) ∨
  (r.is_positive = false ∧ r.is_negative = true ∧ r.is_neutral = false) ∨
  (r.is_positive = false ∧ r.is_negative = false ∧ r.is_neutral = true)

/-! ### Specification-side definition for the refinement claim C4 -/

/-- Following the spec's words for `tryHandle`: the content begins with the
reserved marker `'#lovebot'`, and the first token after stripping the marker,
trimming whitespace and splitting on single spaces, lowercased, is a
recognized command name. -/
def spec_tryHandle_accepts (content : String) : Bool :=
  beginsWith lovebotTag content.data &&
  default_command_names.contains
    ⟨pyLowerL ((pySplitSpaceL (pyStripL (content.data.drop 8))).headD [])⟩

/-! ### Concrete fixtures -/

/-- A concrete inbound message for evaluating the embedding. -/
def mkMsg (sender group content : String) (timestamp : Int) : Message :=
  { sender := sender, group := group, content := content,
    timestamp := timestamp, message_id := some "" }

/-- A placeholder NLP result for fixtures. -/
def emptyNLP : NLPResult := { entities := [], intent := "unknown", topics := [], tokens := [] }

/-- A placeholder neutral sentiment for fixtures. -/
def zeroSentiment : SentimentResult :=
  { score := 0, magnitude := 0, is_positive := false, is_negative := false, is_neutral := true }

/-- A processed message in the given conversation with the given sentiment
score (classification booleans irrelevant to the moderation decision). -/
def mkProcessed (group : String) (score : ℚ) : ProcessedMessage :=
  { original_message := mkMsg "alice" group "..." 0
    nlp_result := emptyNLP
    sentiment := { score := score, magnitude := 1, is_positive := false,
                   is_negative := true, is_neutral := false }
    relevant_context := [] }

/-- A small concrete message store. -/
def dbFixture : List DBRecord :=
  [ { user_id := "alice", group_id := "G1", content := "hi", timestamp := 1 },
    { user_id := "bob", group_id := "G1", content := "hello", timestamp := 2 },
    { user_id := "alice", group_id := "G2", content := "later", timestamp := 3 } ]

/-- A concrete payload carrying a group id. -/
def mdFixture : MessageData :=
  { from_ := "+15550001", group_id := some "G1", body := "hello", id := some "wamid.1" }

/-- A concrete payload with no group id, sender A. -/
def mdNoGroupA : MessageData := { from_ := "+15550001", body := "hello" }

/-- A concrete payload with no group id, sender B. -/
def mdNoGroupB : MessageData := { from_ := "+15550002", body := "hi" }

/-- An environment whose Message Store write raises. -/
def envStoreFail : Env :=
  { storeResult := .error ⟨"StorageError"⟩
    historyResult := .ok []
    nlpResult := .ok emptyNLP
    sentimentResult := .ok zeroSentiment
    relevantContext := []
    sendResult := .success "SM1" }

/-- An environment whose history fetch raises (store succeeds). -/
def envHistoryFail : Env :=
  { storeResult := .ok ()
    historyResult := .error ⟨"ConnectionError"⟩
    nlpResult := .ok emptyNLP
    sentimentResult := .ok zeroSentiment
    relevantContext := []
    sendResult := .success "SM1" }

/-- A fully healthy environment with a neutral sentiment result. -/
def envOk : Env :=
  { storeResult := .ok ()
    historyResult := .ok []
    nlpResult := .ok emptyNLP
    sentimentResult := .ok zeroSentiment
    relevantContext := []
    sendResult := .success "SM1" }

/-! ### Helper lemmas -/

/-- The threshold literal is exactly -0.7. -/
theorem interventionThreshold_eq : interventionThreshold = -0.7 := by
  unfold interventionThreshold
  rw [Rat.mkRat_eq_div]
  norm_num

/-- `pySplitSpaceL` never returns the empty list. -/
theorem pySplitSpaceL_ne_nil (l : List Char) : pySplitSpaceL l ≠ [] := by
  induction l with
  | nil => simp [pySplitSpaceL]
  | cons c rest ih =>
    unfold pySplitSpaceL
    by_cases h : c.toNat == 32
    · simp [h]
    · simp only [h, if_neg]
      cases hs : pySplitSpaceL rest with
      | nil => simp
      | cons t ts => simp

/-! ### Claim theorems -/

/-- C4: `process_command` returns true (dispatching the matching handler) iff
the content begins with `'#lovebot'` and the first token after stripping the
marker, trimming whitespace, splitting on single spaces, and lowercasing is
one of help/pause/resume/settings/feedback; in particular
`'#lovebot frobnicate'` is not a command and falls through. -/
theorem process_command_matches_spec :
    (∀ m : Message, process_command m = spec_tryHandle_accepts m.content) ∧
    process_command (mkMsg "alice" "G1" "#lovebot frobnicate" 0) = false := by
  constructor
  · intro m
    unfold process_command matched_command spec_tryHandle_accepts
    by_cases hb : beginsWith lovebotTag m.content.data
    · simp only [hb, if_true, Bool.true_and]
      cases hs : pySplitSpaceL (pyStripL (m.content.data.drop 8)) with
      | nil => exact absurd hs (pySplitSpaceL_ne_nil _)
      | cons t ts =>
        simp only [hs, List.headD_cons]
        by_cases hm : (⟨pyLowerL t⟩ : String) ∈ default_command_names
        · simp [hm]
        · simp [hm]
    · simp [hb]
  · decide

/-- C10: command matching is case-sensitive and needs no separator after the
marker: `'#lovebothelp'` dispatches the help handler and returns true, while
`'#Lovebot help'` is not a command, and a bare `'#lovebot'` returns false. -/
theorem command_matching_case_and_separator :
    matched_command "#lovebothelp" = some "help" ∧
    process_command (mkMsg "alice" "G1" "#lovebothelp" 0) = true ∧
    process_command (mkMsg "alice" "G1" "#Lovebot help" 0) = false ∧
    process_command (mkMsg "alice" "G1" "#lovebot" 0) = false := by
  refine ⟨by decide, by decide, by decide, by decide⟩

/-- C5: the intervention comparison is strict: a score of exactly -0.7 yields
`should_respond = false`, and a score of -0.71 yields `true`. -/
theorem should_respond_boundary :
    (∀ p : ProcessedMessage, p.sentiment.score = -0.7 → should_respond p = false) ∧
    (∀ p : ProcessedMessage, p.sentiment.score = -0.71 → should_respond p = true) := by
  constructor
  · intro p h
    simp only [should_respond, determine_response_need, h, interventionThreshold_eq]
    simp
  · intro p h
    simp only [should_respond, determine_response_need, h, interventionThreshold_eq]
    norm_num

/-- Witness for C5 at concrete processed messages. -/
theorem should_respond_boundary_witness :
    (mkProcessed "G1" (-0.7)).sentiment.score = -0.7 ∧
    (mkProcessed "G1" (-0.71)).sentiment.score = -0.71 ∧
    should_respond (mkProcessed "G1" (-0.7)) = false ∧
    should_respond (mkProcessed "G1" (-0.71)) = true :=
  ⟨rfl, rfl, should_respond_boundary.1 _ rfl, should_respond_boundary.2 _ rfl⟩

/-- C1 (amended): `should_respond` is true iff the sentiment score is strictly
below -0.7, with no dependence on any pause state — the pause/resume commands
are recognized by the router, but their handlers are no-ops and the moderation
decision reads only the processed message, so a post-pause message with score
-0.9 still yields true. -/
theorem should_respond_threshold_only :
    (∀ p : ProcessedMessage, should_respond p = true ↔ p.sentiment.score < -0.7) ∧
    process_command (mkMsg "alice" "G1" "#lovebot pause" 0) = true ∧
    process_command (mkMsg "alice" "G1" "#lovebot resume" 0) = true ∧
    should_respond (mkProcessed "G1" (-0.9)) = true := by
  refine ⟨fun p => ?_, by decide, by decide, ?_⟩
  · simp [should_respond, determine_response_need, interventionThreshold_eq]
  · norm_num [should_respond, determine_response_need, interventionThreshold_eq, mkProcessed]

/-- C1 counterexample: `'#lovebot pause'` in conversation G1 is accepted as a
command, its handler does nothing, and the subsequent message with score -0.9
in G1 still yields `should_respond = true`, not false as the claim states. -/
theorem pause_then_low_score_counterexample :
    process_command (mkMsg "alice" "G1" "#lovebot pause" 0) = true ∧
    handle_pause_command [] (mkMsg "alice" "G1" "#lovebot pause" 0) = () ∧
    should_respond (mkProcessed "G1" (-0.9)) = true := by
  refine ⟨by decide, rfl, ?_⟩
  norm_num [should_respond, determine_response_need, interventionThreshold_eq, mkProcessed]

/-- C7: `get_conversation_history` returns at most `limit` messages, all in
the requested conversation, ordered newest-first by timestamp, and returns
the empty sequence (not an error) for an unknown conversation identifier. -/
theorem get_conversation_history_spec (db : List DBRecord) (gid : String) (limit : Nat) :
    (get_conversation_history db gid limit).length ≤ limit ∧
    (∀ m ∈ get_conversation_history db gid limit, m.group = gid) ∧
    List.Pairwise (fun a b => b.timestamp ≤ a.timestamp)
      (get_conversation_history db gid limit) ∧
    ((∀ r ∈ db, r.group_id ≠ gid) → get_conversation_history db gid limit = []) := by
  refine ⟨?_, ?_, ?_, ?_⟩
  · simp only [get_conversation_history, List.length_map, List.length_take]
    exact min_le_left _ _
  · intro m hm
    simp only [get_conversation_history, List.mem_map] at hm
    obtain ⟨r, hr, rfl⟩ := hm
    have hr1 : r ∈ (db.filter (fun r => r.group_id == gid)).insertionSort newerFirst :=
      (List.take_sublist _ _).subset hr
    have hr2 : r ∈ db.filter (fun r => r.group_id == gid) :=
      (List.perm_insertionSort newerFirst _).subset hr1
    have hg := List.of_mem_filter hr2
    simpa [recordToMessage] using hg
  · have hsort : List.Sorted newerFirst
        ((db.filter (fun r => r.group_id == gid)).insertionSort newerFirst) :=
      List.sorted_insertionSort newerFirst _
    have htake : List.Pairwise newerFirst
        (((db.filter (fun r => r.group_id == gid)).insertionSort newerFirst).take limit) :=
      List.Pairwise.sublist (List.take_sublist _ _) hsort
    exact List.pairwise_map.mpr (htake.imp (fun h => h))
  · intro hnone
    have hf : db.filter (fun r => r.group_id == gid) = [] := by
      apply List.filter_eq_nil_iff.mpr
      intro a ha
      simpa using hnone a ha
    simp [get_conversation_history, hf]

/-- Witness for C7 at a concrete store, including the unknown-conversation
hypothesis. -/
theorem get_conversation_history_spec_witness :
    (∀ r ∈ dbFixture, r.group_id ≠ "G9") ∧
    get_conversation_history dbFixture "G9" 5 = [] ∧
    (get_conversation_history dbFixture "G1" 1).length ≤ 1 :=
  ⟨by decide, (get_conversation_history_spec dbFixture "G9" 5).2.2.2 (by decide),
   (get_conversation_history_spec dbFixture "G1" 1).1⟩

/-- C2 (amended): a Message Store failure is not caught inside
`handle_message`: the exception propagates out and the pipeline stops before
the command check. -/
theorem store_failure_aborts_pipeline (env : Env) (message_data : MessageData)
    (now : Int) (e : PyErr) (h : env.storeResult = .error e) :
    handle_message env message_data now = .error e := by
  simp only [handle_message, h]
  rfl

/-- Witness for the amended C2 at a concrete environment and payload. -/
theorem store_failure_aborts_pipeline_witness :
    envStoreFail.storeResult = .error ⟨"StorageError"⟩ ∧
    handle_message envStoreFail mdFixture 0 = .error ⟨"StorageError"⟩ :=
  ⟨rfl, store_failure_aborts_pipeline envStoreFail mdFixture 0 _ rfl⟩

/-- C2 counterexample: with a failing store, `handle_message` evaluates to the
propagated `StorageError` and reaches no terminal pipeline state — the
processing of the message did not continue past the store. -/
theorem store_failure_counterexample :
    handle_message envStoreFail mdFixture 0 = .error ⟨"StorageError"⟩ ∧
    ∀ r, handle_message envStoreFail mdFixture 0 ≠ .ok r := by
  have h0 : handle_message envStoreFail mdFixture 0 = .error ⟨"StorageError"⟩ := rfl
  refine ⟨h0, fun r h => ?_⟩
  rw [h0] at h
  exact Except.noConfusion h

/-- C3 (amended): errors from the later collaborators are equally uncaught:
when the store succeeds and the message is not a command, a history-fetch
failure propagates out of `handle_message` to its caller. -/
theorem history_failure_aborts_pipeline (env : Env) (message_data : MessageData)
    (now : Int) (e : PyErr)
    (hstore : env.storeResult = .ok ())
    (hcmd : process_command (mkInboundMessage message_data now) = false)
    (hhist : env.historyResult = .error e) :
    handle_message env message_data now = .error e := by
  simp only [handle_message, hstore, hcmd, hhist]
  rfl

/-- Witness for the amended C3 at a concrete environment and payload. -/
theorem history_failure_aborts_pipeline_witness :
    envHistoryFail.storeResult = .ok () ∧
    process_command (mkInboundMessage mdFixture 0) = false ∧
    envHistoryFail.historyResult = .error ⟨"ConnectionError"⟩ ∧
    handle_message envHistoryFail mdFixture 0 = .error ⟨"ConnectionError"⟩ :=
  ⟨rfl, by decide, rfl,
   history_failure_aborts_pipeline envHistoryFail mdFixture 0 _ rfl (by decide) rfl⟩

/-- C3 counterexample: an unhandled history-fetch error escapes
`handle_message` — the handler evaluates to `Except.error`, not to a handled
terminal state. -/
theorem unhandled_error_escapes_counterexample :
    handle_message envHistoryFail mdFixture 0 = .error ⟨"ConnectionError"⟩ ∧
    ∀ r, handle_message envHistoryFail mdFixture 0 ≠ .ok r := by
  have h0 : handle_message envHistoryFail mdFixture 0 = .error ⟨"ConnectionError"⟩ := rfl
  refine ⟨h0, fun r h => ?_⟩
  rw [h0] at h
  exact Except.noConfusion h

/-- C8 (amended): when the payload carries no `group_id`, the constructed
message's conversation identifier defaults to the empty string — a single
shared pseudo-conversation, not one keyed by the sender. -/
theorem missing_group_defaults_to_empty (message_data : MessageData) (now : Int)
    (h : message_data.group_id = none) :
    (mkInboundMessage message_data now).group = "" := by
  simp [mkInboundMessage, h]

/-- Witness for the amended C8 at a concrete payload. -/
theorem missing_group_defaults_to_empty_witness :
    mdNoGroupA.group_id = none ∧ (mkInboundMessage mdNoGroupA 0).group = "" :=
  ⟨rfl, missing_group_defaults_to_empty mdNoGroupA 0 rfl⟩

/-- C8 counterexample: two payloads without `group_id` from different senders
are mapped to the same conversation identifier `""`, so the default is not a
direct-message pseudo-conversation keyed by the sender. -/
theorem shared_empty_conversation_counterexample :
    mdNoGroupA.from_ ≠ mdNoGroupB.from_ ∧
    (mkInboundMessage mdNoGroupA 0).group = "" ∧
    (mkInboundMessage mdNoGroupB 5).group = (mkInboundMessage mdNoGroupA 0).group := by
  refine ⟨by decide, rfl, rfl⟩

/-- C9: `send_message` never raises: whatever the external create call does,
the method returns the structured result — the success record with the
external message id, or the error record with the reason. -/
theorem send_message_never_raises
    (create : String → String → String → Except String String)
    (phone_number recipient text : String) :
    (∃ sid, create ("whatsapp:" ++ phone_number) text ("whatsapp:" ++ recipient) = .ok sid ∧
      send_message create phone_number recipient text = .ok (.success sid)) ∨
    (∃ e, create ("whatsapp:" ++ phone_number) text ("whatsapp:" ++ recipient) = .error e ∧
      send_message create phone_number recipient text = .ok (.error e)) := by
  cases hc : create ("whatsapp:" ++ phone_number) text ("whatsapp:" ++ recipient) with
  | ok sid =>
    exact Or.inl ⟨sid, rfl, by simp [send_message, send_message_body, hc]⟩
  | error e =>
    exact Or.inr ⟨e, rfl, by simp [send_message, send_message_body, hc]⟩

/-- C6: the spec-modelled sentiment classification sets exactly one of the
three booleans, consistently with the score and the thresholds: score 0 is
neutral, score strictly below the negative threshold is negative, score
strictly above the positive threshold is positive. -/
theorem sentiment_flags_exclusive_exhaustive
    (negativeThreshold positiveThreshold score magnitude : ℚ)
    (hneg : negativeThreshold ≤ 0) (hpos : 0 ≤ positiveThreshold) :
    exactlyOneFlag
      (analyze_sentiment_classification negativeThreshold positiveThreshold score magnitude) ∧
    (score = 0 →
      (analyze_sentiment_classification negativeThreshold positiveThreshold score
        magnitude).is_neutral = true) ∧
    (score < negativeThreshold →
      (analyze_sentiment_classification negativeThreshold positiveThreshold score
        magnitude).is_negative = true) ∧
    (positiveThreshold < score →
      (analyze_sentiment_classification negativeThreshold positiveThreshold score
        magnitude).is_positive = true) := by
  unfold exactlyOneFlag analyze_sentiment_classification
  refine ⟨?_, ?_, ?_, ?_⟩
  · by_cases h1 : positiveThreshold < score
    · have h2 : ¬ score < negativeThreshold := by linarith
      left
      simp [h1, h2]
    · by_cases h2 : score < negativeThreshold
      · right; left
        simp [h1, h2]
      · right; right
        simp [h1, h2]
  · intro h0
    subst h0
    simp only [decide_eq_true_eq]
    constructor
    · linarith
    · linarith
  · intro h
    simp [h]
  · intro h
    simp [h]

/-- Witness for C6 at concrete symmetric thresholds and a negative score. -/
theorem sentiment_flags_witness :
    ((-1 : ℚ) ≤ 0 ∧ (0 : ℚ) ≤ 1) ∧
    exactlyOneFlag (analyze_sentiment_classification (-1) 1 (-2) 1) ∧
    (analyze_sentiment_classification (-1) 1 (-2) 1).is_negative = true :=
  ⟨⟨neg_nonpos.mpr zero_le_one, zero_le_one⟩,
   (sentiment_flags_exclusive_exhaustive (-1) 1 (-2) 1
     (neg_nonpos.mpr zero_le_one) zero_le_one).1,
   (sentiment_flags_exclusive_exhaustive (-1) 1 (-2) 1
     (neg_nonpos.mpr zero_le_one) zero_le_one).2.2.1 (neg_lt_neg one_lt_two)⟩
